import Mathlib

/-!
Shallow embedding of the qmd Raycast extension's search core
(src/components/SearchView.tsx, src/hooks/useSearchHistory.ts,
src/utils/qmd.ts, and the globally-keyed history variant).

Numbers that are JavaScript doubles in the source (relevance scores) are
modelled as rationals; at every decision boundary exercised below the
rational comparison agrees with the IEEE-double comparison performed by
the source, because the decimal literals involved round to distinct
doubles in the same order.  JavaScript String.prototype.trim is modelled
by an explicit whitespace-stripping function on character lists.
-/

-- ===========================================================================
-- JavaScript string helpers
-- ===========================================================================

/-- Whitespace test used by JavaScript trim (ASCII fragment). -/
def jsWhitespace (c : Char) : Bool := c.isWhitespace

/-- Drop leading whitespace characters. -/
def dropWhileWs : List Char → List Char
  | [] => []
  | c :: cs => if jsWhitespace c then dropWhileWs cs else c :: cs

/-- Model of JavaScript trim on character lists: strip both ends. -/
def jsTrimL (l : List Char) : List Char :=
  (dropWhileWs (dropWhileWs l.reverse).reverse)

/-- Model of JavaScript String.prototype.trim. -/
def jsTrim (s : String) : String := String.mk (jsTrimL s.toList)

/-- Prefix test on character lists. -/
def hasPrefixL : List Char → List Char → Bool
  | _, [] => true
  | [], _ :: _ => false
  | c :: cs, d :: ds => c = d && hasPrefixL cs ds

/-- Substring test on character lists, modelling JavaScript
String.prototype.includes. -/
def containsSub : List Char → List Char → Bool
  | hay, needle =>
    if hasPrefixL hay needle then true
    else match hay with
      | [] => false
      | _ :: rest => containsSub rest needle

/-- Model of JavaScript String.prototype.includes. -/
def jsIncludes (s sub : String) : Bool := containsSub s.toList sub.toList

-- ===========================================================================
-- Score utilities (src/utils/qmd.ts, getScoreColor / formatScorePercentage)
-- ===========================================================================

/-- ScoreColor from src/types.ts: "green" | "yellow" | "red".
The spec's three-tier classification names these tiers "high" (green),
"medium" (yellow) and "low" (red). -/
inductive ScoreColor where
  | green
  | yellow
  | red
deriving DecidableEq

/-- getScoreColor from src/utils/qmd.ts:
if (score > 0.7) return "green"; if (score >= 0.4) return "yellow";
return "red". -/
def getScoreColor (score : ℚ) : ScoreColor :=
  if score > 7/10 then ScoreColor.green
  else if score ≥ 4/10 then ScoreColor.yellow
  else ScoreColor.red

/-- Model of JavaScript Math.round (round half toward positive infinity). -/
def jsMathRound (x : ℚ) : ℤ := ⌊x + 1/2⌋

/-- formatScorePercentage from src/utils/qmd.ts:
template string of Math.round(score * 100) followed by a percent sign. -/
def formatScorePercentage (score : ℚ) : String :=
  toString (jsMathRound (score * 100)) ++ "%"

-- ===========================================================================
-- History store
-- ===========================================================================

/-- Maximum retained history entries (MAX_HISTORY_ITEMS = 10 in both
variants of useSearchHistory). -/
def MAX_HISTORY_ITEMS : ℕ := 10

/-- History entry of the per-mode-keyed variant
(src/hooks/useSearchHistory.ts): query text and timestamp. -/
structure HistoryItem where
  query : String
  timestamp : ℕ
deriving DecidableEq

/-- SearchMode from src/types.ts: "search" | "vsearch" | "query". -/
inductive SearchMode where
  | search
  | vsearch
  | query
deriving DecidableEq

/-- History entry of the globally-keyed variant: query, mode, timestamp. -/
structure SearchHistoryItem where
  query : String
  mode : SearchMode
  timestamp : ℕ
deriving DecidableEq

/-- addToHistory of src/hooks/useSearchHistory.ts (per-mode key variant),
acting on the in-memory list: early return on whitespace-only query,
otherwise remove entries with the same (trimmed) query, insert the new
item at the front, and truncate to MAX_HISTORY_ITEMS. -/
def addToHistory (query : String) (now : ℕ) (prev : List HistoryItem) :
    List HistoryItem :=
  if jsTrim query = "" then prev
  else
    let newItem : HistoryItem := ⟨jsTrim query, now⟩
    (newItem :: prev.filter (fun item => item.query ≠ newItem.query)).take
      MAX_HISTORY_ITEMS

/-- The per-mode variant's full effect on hook state and LocalStorage:
on the early whitespace return neither the list nor the stored value is
touched; otherwise both become the new history. -/
structure HistoryState where
  items : List HistoryItem
  stored : Option (List HistoryItem)
deriving DecidableEq

/-- addToHistory including its LocalStorage.setItem side effect. -/
def addToHistoryFull (query : String) (now : ℕ) (st : HistoryState) :
    HistoryState :=
  if jsTrim query = "" then st
  else
    let newHistory := addToHistory query now st.items
    { items := newHistory, stored := some newHistory }

/-- addToHistory of the globally-keyed variant: dedupe is by query AND
mode; the stored item also records the mode. -/
def addToHistoryGlobal (query : String) (mode : SearchMode) (now : ℕ)
    (prev : List SearchHistoryItem) : List SearchHistoryItem :=
  if jsTrim query = "" then prev
  else
    let newItem : SearchHistoryItem := ⟨jsTrim query, mode, now⟩
    (newItem :: prev.filter
        (fun item =>
          ¬(item.query = newItem.query ∧ item.mode = newItem.mode))).take
      MAX_HISTORY_ITEMS

/-- Globally-keyed variant's full effect on state and storage. -/
structure HistoryStateG where
  items : List SearchHistoryItem
  stored : Option (List SearchHistoryItem)
deriving DecidableEq

/-- addToHistory of the globally-keyed variant with its storage write. -/
def addToHistoryGlobalFull (query : String) (mode : SearchMode) (now : ℕ)
    (st : HistoryStateG) : HistoryStateG :=
  if jsTrim query = "" then st
  else
    let newHistory := addToHistoryGlobal query mode now st.items
    { items := newHistory, stored := some newHistory }

-- ===========================================================================
-- Theorems: score classification and formatting (C3, C8)
-- ===========================================================================

/-- Claim C3 (corrected): the three-tier classification of getScoreColor
is high (green) iff score > 0.70, medium (yellow) iff 0.40 ≤ score ≤ 0.70
and low (red) iff score < 0.40; at the boundaries, 0.70 classifies as
medium (the upper bound is a strict greater-than, so 0.70 itself is not
high), 0.4 as medium and 0.399 as low. -/
theorem scoreColor_tier_classification :
    (∀ s : ℚ, getScoreColor s = ScoreColor.green ↔ 7/10 < s) ∧
    (∀ s : ℚ, getScoreColor s = ScoreColor.yellow ↔ 4/10 ≤ s ∧ s ≤ 7/10) ∧
    (∀ s : ℚ, getScoreColor s = ScoreColor.red ↔ s < 4/10) ∧
    getScoreColor (70/100) = ScoreColor.yellow ∧
    getScoreColor (4/10) = ScoreColor.yellow ∧
    getScoreColor (399/1000) = ScoreColor.red := by
  refine ⟨fun s => ?_, fun s => ?_, fun s => ?_, ?_, ?_, ?_⟩ <;>
    unfold getScoreColor
  · split_ifs with h1 h2 <;> simp_all <;> try linarith
  · split_ifs with h1 h2 <;> simp_all <;> try linarith
  · split_ifs with h1 h2 <;> simp_all <;> try linarith
  · norm_num
  · norm_num
  · norm_num

/-- Counterexample for claim C3 as stated: the claim asserts that
classify(0.70) is high (green), but getScoreColor at exactly 0.70 takes
the strict-greater-than branch negatively and returns yellow (medium). -/
theorem scoreColor_boundary_cex :
    getScoreColor (70/100) = ScoreColor.yellow ∧
    getScoreColor (70/100) ≠ ScoreColor.green := by
  have h : getScoreColor (70/100) = ScoreColor.yellow := by
    unfold getScoreColor
    norm_num
  exact ⟨h, by rw [h]; exact fun hc => ScoreColor.noConfusion hc⟩

/-- Claim C8: formatScorePercentage renders round(score * 100) as an
integer with a percent sign; 0.734 gives 73 percent, 1.0 gives 100
percent, 0 gives 0 percent, and 0.005 rounds up to 1 percent (rounding,
not truncation). -/
theorem formatScorePercentage_rounds :
    formatScorePercentage (734/1000) = "73%" ∧
    formatScorePercentage 1 = "100%" ∧
    formatScorePercentage 0 = "0%" ∧
    formatScorePercentage (5/1000) = "1%" ∧
    (∀ s : ℚ,
      formatScorePercentage s = toString (jsMathRound (s * 100)) ++ "%") := by
  have h734 : jsMathRound (734/1000 * 100) = 73 := by
    unfold jsMathRound
    norm_num
  have h1 : jsMathRound ((1 : ℚ) * 100) = 100 := by
    unfold jsMathRound
    norm_num
  have h0 : jsMathRound ((0 : ℚ) * 100) = 0 := by
    unfold jsMathRound
    norm_num
  have h5 : jsMathRound (5/1000 * 100) = 1 := by
    unfold jsMathRound
    norm_num
  refine ⟨?_, ?_, ?_, ?_, fun s => rfl⟩ <;> unfold formatScorePercentage
  · rw [h734]
    decide
  · rw [h1]
    decide
  · rw [h0]
    decide
  · rw [h5]
    decide

-- ===========================================================================
-- Theorems: history store (C5, C6, C10)
-- ===========================================================================

/-- Claim C5: every addition keeps the history at no more than 10
entries, in both the per-mode-keyed and the globally-keyed variant, and
adding 11 distinct queries to an empty history retains exactly the most
recent 10, most recent first, with the oldest entry evicted. -/
theorem history_capacity :
    (∀ (q : String) (now : ℕ) (prev : List HistoryItem),
        prev.length ≤ MAX_HISTORY_ITEMS →
        (addToHistory q now prev).length ≤ MAX_HISTORY_ITEMS) ∧
    (∀ (q : String) (m : SearchMode) (now : ℕ)
        (prev : List SearchHistoryItem),
        prev.length ≤ MAX_HISTORY_ITEMS →
        (addToHistoryGlobal q m now prev).length ≤ MAX_HISTORY_ITEMS) ∧
    addToHistory "q11" 11 (addToHistory "q10" 10 (addToHistory "q09" 9
      (addToHistory "q08" 8 (addToHistory "q07" 7 (addToHistory "q06" 6
      (addToHistory "q05" 5 (addToHistory "q04" 4 (addToHistory "q03" 3
      (addToHistory "q02" 2 (addToHistory "q01" 1 [])))))))))) =
      [⟨"q11", 11⟩, ⟨"q10", 10⟩, ⟨"q09", 9⟩, ⟨"q08", 8⟩, ⟨"q07", 7⟩,
       ⟨"q06", 6⟩, ⟨"q05", 5⟩, ⟨"q04", 4⟩, ⟨"q03", 3⟩, ⟨"q02", 2⟩] := by
  refine ⟨?_, ?_, by decide⟩
  · intro q now prev hlen
    by_cases h : jsTrim q = ""
    · simpa [addToHistory, h] using hlen
    · simp [addToHistory, h, List.length_take]
  · intro q m now prev hlen
    by_cases h : jsTrim q = ""
    · simpa [addToHistoryGlobal, h] using hlen
    · simp [addToHistoryGlobal, h, List.length_take]

/-- Witness for claim C5's bound at a concrete input. -/
theorem history_capacity_witness :
    ([⟨"a", 0⟩] : List HistoryItem).length ≤ MAX_HISTORY_ITEMS ∧
    (addToHistory "b" 1 [⟨"a", 0⟩]).length ≤ MAX_HISTORY_ITEMS :=
  ⟨by decide, history_capacity.1 "b" 1 [⟨"a", 0⟩] (by decide)⟩

/-- Claim C6: adding the same query twice (same mode in the
globally-keyed variant) leaves exactly one entry for that query, at the
front, carrying the later timestamp; the prior duplicate is filtered out
before the new entry is inserted.  Stated for both history variants. -/
theorem history_dedupe_front (q : String) (t1 t2 : ℕ)
    (prev : List HistoryItem) (m : SearchMode)
    (prevG : List SearchHistoryItem) (h : jsTrim q ≠ "") :
    (addToHistory q t2 (addToHistory q t1 prev)).head? =
      some ⟨jsTrim q, t2⟩ ∧
    (addToHistory q t2 (addToHistory q t1 prev)).countP
      (fun item => item.query == jsTrim q) = 1 ∧
    (addToHistoryGlobal q m t2 (addToHistoryGlobal q m t1 prevG)).head? =
      some ⟨jsTrim q, m, t2⟩ ∧
    (addToHistoryGlobal q m t2 (addToHistoryGlobal q m t1 prevG)).countP
      (fun item => item.query == jsTrim q && item.mode == m) = 1 := by
  have e : ∀ (t : ℕ) (l : List HistoryItem),
      addToHistory q t l =
        ⟨jsTrim q, t⟩ ::
          (l.filter fun item => item.query ≠ jsTrim q).take 9 := by
    intro t l
    unfold addToHistory
    rw [if_neg h, show MAX_HISTORY_ITEMS = 9 + 1 from rfl,
      List.take_succ_cons]
  have eG : ∀ (t : ℕ) (l : List SearchHistoryItem),
      addToHistoryGlobal q m t l =
        ⟨jsTrim q, m, t⟩ ::
          (l.filter fun item =>
            ¬(item.query = jsTrim q ∧ item.mode = m)).take 9 := by
    intro t l
    unfold addToHistoryGlobal
    rw [if_neg h, show MAX_HISTORY_ITEMS = 9 + 1 from rfl,
      List.take_succ_cons]
  have hz : ∀ x ∈ ((addToHistory q t1 prev).filter
      fun item => item.query ≠ jsTrim q).take 9,
      ¬(x.query == jsTrim q) = true := by
    intro x hx
    have hx' := List.take_subset _ _ hx
    simp [List.mem_filter] at hx'
    simp [hx'.2]
  have hzG : ∀ x ∈ ((addToHistoryGlobal q m t1 prevG).filter
      fun item => ¬(item.query = jsTrim q ∧ item.mode = m)).take 9,
      ¬(x.query == jsTrim q && x.mode == m) = true := by
    intro x hx
    have hx' := List.take_subset _ _ hx
    simp [List.mem_filter] at hx'
    intro hc
    simp at hc
    rcases hx'.2 with hq | hm
    · exact hq hc.1
    · exact hm hc.2
  refine ⟨?_, ?_, ?_, ?_⟩
  · rw [e t2]
    rfl
  · rw [e t2, List.countP_cons, List.countP_eq_zero.mpr hz]
    simp
  · rw [eG t2]
    rfl
  · rw [eG t2, List.countP_cons, List.countP_eq_zero.mpr hzG]
    simp

/-- Witness for claim C6 at the concrete query "alpha". -/
theorem history_dedupe_front_witness :
    jsTrim "alpha" ≠ "" ∧
    ((addToHistory "alpha" 2 (addToHistory "alpha" 1 [])).head? =
        some ⟨jsTrim "alpha", 2⟩ ∧
      (addToHistory "alpha" 2 (addToHistory "alpha" 1 [])).countP
        (fun item => item.query == jsTrim "alpha") = 1 ∧
      (addToHistoryGlobal "alpha" SearchMode.search 2
          (addToHistoryGlobal "alpha" SearchMode.search 1 [])).head? =
        some ⟨jsTrim "alpha", SearchMode.search, 2⟩ ∧
      (addToHistoryGlobal "alpha" SearchMode.search 2
          (addToHistoryGlobal "alpha" SearchMode.search 1 [])).countP
        (fun item =>
          item.query == jsTrim "alpha" &&
            item.mode == SearchMode.search) = 1) :=
  ⟨by decide,
    history_dedupe_front "alpha" 1 2 [] SearchMode.search [] (by decide)⟩

/-- Claim C10: a whitespace-only (or empty) query makes addToHistory a
complete no-op in both variants: the in-memory list and the persisted
storage value are exactly unchanged. -/
theorem addToHistory_whitespace_noop (q : String) (now : ℕ)
    (st : HistoryState) (m : SearchMode) (stG : HistoryStateG)
    (h : jsTrim q = "") :
    addToHistoryFull q now st = st ∧
    addToHistoryGlobalFull q m now stG = stG := by
  constructor
  · simp [addToHistoryFull, h]
  · simp [addToHistoryGlobalFull, h]

/-- Witness for claim C10 at a concrete whitespace query. -/
theorem addToHistory_whitespace_noop_witness :
    jsTrim " \t " = "" ∧
    (addToHistoryFull " \t " 5 ⟨[⟨"a", 0⟩], some [⟨"a", 0⟩]⟩ =
        ⟨[⟨"a", 0⟩], some [⟨"a", 0⟩]⟩ ∧
      addToHistoryGlobalFull " \t " SearchMode.vsearch 5 ⟨[], none⟩ =
        ⟨[], none⟩) :=
  ⟨by decide,
    addToHistory_whitespace_noop " \t " 5 ⟨[⟨"a", 0⟩], some [⟨"a", 0⟩]⟩
      SearchMode.vsearch ⟨[], none⟩ (by decide)⟩

-- ===========================================================================
-- Virtual path parsing and result enrichment (SearchView.tsx)
-- ===========================================================================

/-- Split a character list at its first slash, modelling indexOf("/")
followed by the two slice calls in parseQmdUrl; none when no slash. -/
def findSlashSplit : List Char → Option (List Char × List Char)
  | [] => none
  | c :: cs =>
    if c = '/' then some ([], cs)
    else
      match findSlashSplit cs with
      | some (pre, post) => some (c :: pre, post)
      | none => none

/-- parseQmdUrl from SearchView.tsx: require the qmd scheme, drop the
six scheme characters, and split the remainder at its first slash into
collection name and collection-relative path. -/
def parseQmdUrl (file : String) : Option (String × String) :=
  if file.toList.take 6 = "qmd://".toList then
    (findSlashSplit (file.toList.drop 6)).map
      (fun p => (String.mk p.1, String.mk p.2))
  else none

/-- Raw search result as delivered by the engine (QmdSearchResult before
enrichment); only the fields the enrichment reads are modelled. -/
structure RawResult where
  file : String
  docid : String
  title : String
  score : ℚ
  snippet : String
deriving DecidableEq

/-- Enriched search result: raw fields plus collection, relative path
and the advisory absolute path (none when unresolvable). -/
structure EnrichedResult where
  raw : RawResult
  collection : Option String
  path : Option String
  fullPath : Option String
deriving DecidableEq

/-- Result enrichment from performSearch in SearchView.tsx: parse the
virtual URL, look the collection up in the name-to-root mapping
(JavaScript truthiness: an empty collection name, a missing or empty
root, and an empty relative path all yield undefined), and join root
and relative path with a slash. -/
def enrichResult (collectionPaths : String → Option String)
    (r : RawResult) : EnrichedResult :=
  let parsed := parseQmdUrl r.file
  let collectionBasePath : Option String :=
    match parsed with
    | some (c, _) => if c ≠ "" then collectionPaths c else none
    | none => none
  let fullPath : Option String :=
    match collectionBasePath, parsed with
    | some base, some (_, p) =>
      if base ≠ "" ∧ p ≠ "" then some (base ++ "/" ++ p) else none
    | _, _ => none
  { raw := r, collection := parsed.map Prod.fst,
    path := parsed.map Prod.snd, fullPath := fullPath }

/-- findSlashSplit splits exactly at the first slash when the prefix is
slash-free. -/
theorem findSlashSplit_append (pre post : List Char) (h : '/' ∉ pre) :
    findSlashSplit (pre ++ '/' :: post) = some (pre, post) := by
  induction pre with
  | nil => simp [findSlashSplit]
  | cons c cs ih =>
    have hc : c ≠ '/' := fun hc => h (hc ▸ List.mem_cons_self c cs)
    have hcs : '/' ∉ cs := fun hm => h (List.mem_cons_of_mem c hm)
    simp [findSlashSplit, hc, ih hcs]

/-- parseQmdUrl recovers collection name and relative path from a
well-formed virtual URL whose collection name is slash-free. -/
theorem parseQmdUrl_virtual (name rel : String) (hn : '/' ∉ name.toList) :
    parseQmdUrl ("qmd://" ++ name ++ "/" ++ rel) = some (name, rel) := by
  have hdata : ("qmd://" ++ name ++ "/" ++ rel).toList =
      "qmd://".toList ++ (name.toList ++ '/' :: rel.toList) := by
    simp [String.toList, String.data_append]
  unfold parseQmdUrl
  rw [hdata, show (6 : ℕ) = ("qmd://".toList).length from rfl,
    List.take_left, List.drop_left, if_pos rfl,
    findSlashSplit_append _ _ hn]
  rfl

/-- Claim C7: for a raw result whose file reference has the virtual form
qmd://collection-name/relative-path (nonempty slash-free name, nonempty
relative path) and any collection-to-root mapping, enrichment resolves
the absolute path to root/relative-path when the name maps to a
(nonempty) root, and leaves it undefined, raising no error, when the
collection is unknown. -/
theorem enrichment_resolves_path (cp : String → Option String)
    (r : RawResult) (name rel : String)
    (hf : r.file = "qmd://" ++ name ++ "/" ++ rel)
    (hn : '/' ∉ name.toList) (hne : name ≠ "") (hre : rel ≠ "") :
    (∀ root, cp name = some root → root ≠ "" →
      (enrichResult cp r).fullPath = some (root ++ "/" ++ rel)) ∧
    (cp name = none → (enrichResult cp r).fullPath = none) := by
  have hp : parseQmdUrl r.file = some (name, rel) := by
    rw [hf]
    exact parseQmdUrl_virtual name rel hn
  constructor
  · intro root hr hroot
    simp [enrichResult, hp, hne, hr, hroot, hre]
  · intro hr
    simp [enrichResult, hp, hne, hr]

/-- Witness for claim C7 on the spec's example: collection root
/home/u/notes and reference qmd://notes/sub/file.md resolve to
/home/u/notes/sub/file.md, and an unknown collection resolves to none. -/
theorem enrichment_resolves_path_witness :
    ((⟨"qmd://notes/sub/file.md", "d1", "t", 0, "s"⟩ : RawResult).file =
        "qmd://" ++ "notes" ++ "/" ++ "sub/file.md" ∧
      '/' ∉ "notes".toList ∧ "notes" ≠ "" ∧ "sub/file.md" ≠ "") ∧
    (enrichResult
        (fun n => if n = "notes" then some "/home/u/notes" else none)
        ⟨"qmd://notes/sub/file.md", "d1", "t", 0, "s"⟩).fullPath =
      some "/home/u/notes/sub/file.md" ∧
    (enrichResult (fun _ => none)
        ⟨"qmd://notes/sub/file.md", "d1", "t", 0, "s"⟩).fullPath = none :=
  ⟨⟨by decide, by decide, by decide, by decide⟩,
    (enrichment_resolves_path
        (fun n => if n = "notes" then some "/home/u/notes" else none)
        ⟨"qmd://notes/sub/file.md", "d1", "t", 0, "s"⟩ "notes" "sub/file.md"
        (by decide) (by decide) (by decide) (by decide)).1
      "/home/u/notes" (by decide) (by decide),
    (enrichment_resolves_path (fun _ => none)
        ⟨"qmd://notes/sub/file.md", "d1", "t", 0, "s"⟩ "notes" "sub/file.md"
        (by decide) (by decide) (by decide) (by decide)).2 rfl⟩

-- ===========================================================================
-- Process Invoker (src/utils/qmd.ts, runQmd)
-- ===========================================================================

/-- Outcome of the underlying execAsync call: spawn/exit/timeout failure
with a message and optional captured stderr, or captured stdout/stderr. -/
inductive ExecOutcome where
  | failed (message : String) (stderr : Option String)
  | completed (stdout : String) (stderr : String)
deriving DecidableEq

/-- Payload of a successful runQmd call: the JSON-parsed value, or the
raw stdout string when JSON parsing was not performed. -/
inductive QmdPayload (α : Type) where
  | parsed (data : α)
  | raw (stdout : String)
deriving DecidableEq

/-- QmdResult<T> from src/types.ts: success flag with optional data,
error message and diagnostic stderr. -/
structure QmdResult (α : Type) where
  success : Bool
  data : Option (QmdPayload α)
  error : Option String
  stderr : Option String
deriving DecidableEq

/-- runQmd from src/utils/qmd.ts, parameterised by the JSON parser:
on exec failure normalize the message; on exec success parse stdout as
JSON only when JSON output was requested and the trimmed stdout is
non-empty, otherwise return the raw stdout as the payload. -/
def runQmd {α : Type} (parseJson : String → Except String α)
    (includeJson : Bool) (execResult : ExecOutcome) : QmdResult α :=
  match execResult with
  | ExecOutcome.failed message stderr =>
    { success := false, data := none,
      error := some
        (if message = "" then "Command execution failed" else message),
      stderr := stderr }
  | ExecOutcome.completed stdout stderr =>
    if includeJson = true ∧ jsTrim stdout ≠ "" then
      match parseJson stdout with
      | Except.ok data =>
        { success := true, data := some (QmdPayload.parsed data),
          error := none,
          stderr := if stderr = "" then none else some stderr }
      | Except.error msg =>
        { success := false, data := none,
          error := some ("Failed to parse JSON output: " ++ msg),
          stderr := some stdout }
    else
      { success := true, data := some (QmdPayload.raw stdout),
        error := none,
        stderr := if stderr = "" then none else some stderr }

/-- Claim C9: with JSON output requested, a successful subprocess whose
stdout is empty or whitespace-only makes runQmd return success with the
raw stdout string as payload, without consulting the JSON parser (the
result is the same for any parser); and a failed result from a
successful subprocess — in particular a JSON parse failure — is only
possible when the trimmed stdout is non-empty. -/
theorem runQmd_whitespace_stdout {α : Type}
    (parseJson parse2 : String → Except String α)
    (stdout stderr : String) (h : jsTrim stdout = "") :
    runQmd parseJson true (ExecOutcome.completed stdout stderr) =
      { success := true, data := some (QmdPayload.raw stdout),
        error := none,
        stderr := if stderr = "" then none else some stderr } ∧
    runQmd parseJson true (ExecOutcome.completed stdout stderr) =
      runQmd parse2 true (ExecOutcome.completed stdout stderr) ∧
    (∀ (stdout2 stderr2 : String),
      (runQmd parseJson true
        (ExecOutcome.completed stdout2 stderr2)).success = false →
      jsTrim stdout2 ≠ "") := by
  refine ⟨by simp [runQmd, h], by simp [runQmd, h], ?_⟩
  intro stdout2 stderr2 hfail
  by_cases h2 : jsTrim stdout2 = ""
  · simp [runQmd, h2] at hfail
  · exact h2

/-- Witness for claim C9 on a whitespace-only stdout and an
always-failing JSON parser. -/
theorem runQmd_whitespace_stdout_witness :
    jsTrim " \n " = "" ∧
    runQmd (fun _ => (Except.error "bad" : Except String ℕ))
        true (ExecOutcome.completed " \n " "") =
      { success := true, data := some (QmdPayload.raw " \n "),
        error := none, stderr := none } := by
  constructor
  · decide
  · have h := (runQmd_whitespace_stdout
      (fun _ => (Except.error "bad" : Except String ℕ))
      (fun _ => Except.error "bad") " \n " "" (by decide)).1
    simpa using h

-- ===========================================================================
-- Search Orchestrator (SearchView.tsx)
-- ===========================================================================

/-- isExpensiveSearch from SearchView.tsx: the semantic and hybrid modes
require an explicit trigger. -/
def isExpensiveSearch (mode : SearchMode) : Bool :=
  mode == SearchMode.vsearch || mode == SearchMode.query

/-- Search response as consumed by performSearch: QmdResult specialised
to a parsed list of raw results. -/
structure SearchResponse where
  success : Bool
  data : Option (List RawResult)
  error : Option String
deriving DecidableEq

/-- Orchestrator state owned by one SearchView instance.  failureToasts
counts failure notifications shown; dispatchCount counts subprocess
search invocations. -/
structure OrchState where
  searchText : String
  searchMode : SearchMode
  results : List EnrichedResult
  isSearching : Bool
  isDebouncing : Bool
  pendingSearch : Bool
  searchRequestId : ℕ
  history : List HistoryItem
  failureToasts : ℕ
  dispatchCount : ℕ
deriving DecidableEq

/-- The synchronous prefix of performSearch, up to and including the
runQmd dispatch: guard against empty query or unready dependencies,
allocate the next request identity, set the in-flight flags and count
the dispatch. -/
def performSearchStart (query : String) (isReady : Bool)
    (st : OrchState) : OrchState :=
  if ¬(jsTrim query ≠ "" ∧ isReady = true) then
    { st with results := [], pendingSearch := false }
  else
    { st with
        searchRequestId := st.searchRequestId + 1,
        isSearching := true, isDebouncing := false, pendingSearch := false,
        dispatchCount := st.dispatchCount + 1 }

/-- The continuation of performSearch that runs when the awaited runQmd
call returns: discard the response silently when its request identity is
no longer current; otherwise apply the success branch (enrich results,
record history) or the failure branch (clear results, toast unless the
error message contains "No results"). -/
def performSearchComplete (requestId : ℕ) (query : String)
    (response : SearchResponse) (collectionPaths : String → Option String)
    (now : ℕ) (st : OrchState) : OrchState :=
  if requestId ≠ st.searchRequestId then st
  else
    let st' :=
      if response.success = true ∧ response.data.isSome then
        { st with
            results :=
              (response.data.getD []).map (enrichResult collectionPaths),
            history := addToHistory query now st.history }
      else
        let toast : Bool :=
          match response.error with
          | some e => (e != "") && !(jsIncludes e "No results")
          | none => false
        { st with results := [],
                  failureToasts :=
                    st.failureToasts + (if toast then 1 else 0) }
    { st' with isSearching := false }

/-- Events that drive one SearchView instance: text edits, expiry of the
400 ms debounce timer (which exists only in keyword mode with non-empty
trimmed text), the explicit trigger action, mode switches, and arrival
of a dispatched request's response. -/
inductive OrchEvent where
  | textChange (text : String)
  | timerFire (isReady : Bool)
  | trigger (isReady : Bool)
  | switchMode (mode : SearchMode)
  | complete (requestId : ℕ) (query : String) (response : SearchResponse)
      (collectionPaths : String → Option String) (now : ℕ)

/-- Single transition of the orchestrator, combining onSearchTextChange
with the debounce effect, the timer callback, triggerSearch,
switchToMode and the post-await part of performSearch. -/
def stepOrch (st : OrchState) (e : OrchEvent) : OrchState :=
  match e with
  | OrchEvent.textChange t =>
    let st1 := { st with searchText := t }
    if isExpensiveSearch st1.searchMode then
      if jsTrim t ≠ "" then
        { st1 with pendingSearch := true, results := [],
                   isDebouncing := false }
      else
        { st1 with pendingSearch := false, results := [],
                   isDebouncing := false }
    else
      if jsTrim t ≠ "" then { st1 with isDebouncing := true }
      else { st1 with isDebouncing := false, results := [] }
  | OrchEvent.timerFire ready =>
    if isExpensiveSearch st.searchMode = false ∧
        jsTrim st.searchText ≠ "" then
      performSearchStart st.searchText ready st
    else st
  | OrchEvent.trigger ready =>
    if jsTrim st.searchText ≠ "" then
      performSearchStart st.searchText ready st
    else st
  | OrchEvent.switchMode m =>
    if m ≠ st.searchMode then
      let st1 := { st with searchMode := m, results := [] }
      if jsTrim st.searchText ≠ "" then
        if isExpensiveSearch m then { st1 with pendingSearch := true }
        else { st1 with isDebouncing := true }
      else st1
    else st
  | OrchEvent.complete requestId query response cp now =>
    performSearchComplete requestId query response cp now st

/-- Run a sequence of orchestrator events. -/
def runOrch (st : OrchState) (evs : List OrchEvent) : OrchState :=
  evs.foldl stepOrch st

/-- The request identity counter never decreases (it is incremented on
dispatch and read-only everywhere else). -/
theorem stepOrch_requestId_mono (st : OrchState) (e : OrchEvent) :
    st.searchRequestId ≤ (stepOrch st e).searchRequestId := by
  cases e <;>
    simp only [stepOrch, performSearchStart, performSearchComplete]
  all_goals repeat' split
  all_goals simp

/-- Counter monotonicity along any event sequence. -/
theorem runOrch_requestId_mono (st : OrchState) (evs : List OrchEvent) :
    st.searchRequestId ≤ (runOrch st evs).searchRequestId := by
  induction evs generalizing st with
  | nil => simp [runOrch]
  | cons e evs ih =>
    have h1 := stepOrch_requestId_mono st e
    have h2 := ih (stepOrch st e)
    have h3 : runOrch st (e :: evs) = runOrch (stepOrch st e) evs := rfl
    rw [h3]
    omega

/-- Claim C1: if request R1 was dispatched (its identity is at most the
counter) and a later request was dispatched afterwards (the counter
strictly increased during the subsequent events, which is the only way
it changes), then processing R1's late response leaves the whole
orchestrator state — displayed results, history, flags, counters —
exactly unchanged: the response's identity no longer equals the current
counter, so performSearchComplete discards it silently. -/
theorem stale_response_discarded (st : OrchState) (evs : List OrchEvent)
    (id1 : ℕ) (q : String) (resp : SearchResponse)
    (cp : String → Option String) (now : ℕ)
    (h1 : id1 ≤ st.searchRequestId)
    (h2 : st.searchRequestId < (runOrch st evs).searchRequestId) :
    stepOrch (runOrch st evs) (OrchEvent.complete id1 q resp cp now) =
      runOrch st evs := by
  have hne : id1 ≠ (runOrch st evs).searchRequestId := by omega
  simp [stepOrch, performSearchComplete, hne]

/-- Witness for claim C1: a state with request 1 in flight, a second
dispatch via the trigger action, then request 1's response arriving. -/
theorem stale_response_discarded_witness :
    (1 : ℕ) ≤
      (⟨"a", SearchMode.search, [], true, false, false, 1, [], 0,
          1⟩ : OrchState).searchRequestId ∧
    (⟨"a", SearchMode.search, [], true, false, false, 1, [], 0,
        1⟩ : OrchState).searchRequestId <
      (runOrch
        ⟨"a", SearchMode.search, [], true, false, false, 1, [], 0, 1⟩
        [OrchEvent.trigger true]).searchRequestId ∧
    stepOrch
        (runOrch
          ⟨"a", SearchMode.search, [], true, false, false, 1, [], 0, 1⟩
          [OrchEvent.trigger true])
        (OrchEvent.complete 1 "a" ⟨true, some [], none⟩
          (fun _ => none) 7) =
      runOrch
        ⟨"a", SearchMode.search, [], true, false, false, 1, [], 0, 1⟩
        [OrchEvent.trigger true] :=
  ⟨by decide, by decide,
    stale_response_discarded
      ⟨"a", SearchMode.search, [], true, false, false, 1, [], 0, 1⟩
      [OrchEvent.trigger true] 1 "a" ⟨true, some [], none⟩
      (fun _ => none) 7 (by decide) (by decide)⟩

/-- Events a user or timer can produce without the explicit trigger
action: text edits, debounce-timer expiries and mode switches. -/
def nonTriggerInput : OrchEvent → Prop
  | OrchEvent.textChange _ => True
  | OrchEvent.timerFire _ => True
  | OrchEvent.switchMode _ => True
  | OrchEvent.trigger _ => False
  | OrchEvent.complete _ _ _ _ _ => False

/-- An event keeps the session inside the expensive modes: any mode it
switches to is itself expensive. -/
def keepsExpensive : OrchEvent → Prop
  | OrchEvent.switchMode m => isExpensiveSearch m = true
  | _ => True

/-- One non-trigger input in an expensive mode dispatches nothing and
leaves the mode expensive. -/
theorem stepOrch_expensive_no_dispatch (st : OrchState) (e : OrchEvent)
    (hm : isExpensiveSearch st.searchMode = true)
    (he : nonTriggerInput e) (hk : keepsExpensive e) :
    (stepOrch st e).dispatchCount = st.dispatchCount ∧
    (stepOrch st e).searchRequestId = st.searchRequestId ∧
    isExpensiveSearch (stepOrch st e).searchMode = true := by
  cases e with
  | textChange t =>
    simp only [stepOrch]
    split <;> split <;> simp_all
  | timerFire ready =>
    simp only [stepOrch]
    rw [if_neg]
    · exact ⟨rfl, rfl, hm⟩
    · intro hc
      rw [hm] at hc
      exact absurd hc.1 (by simp)
  | trigger ready => exact absurd he (by simp [nonTriggerInput])
  | switchMode m =>
    simp only [stepOrch]
    split
    · split <;> simp_all [keepsExpensive]
    · simp_all
  | complete rid q resp cp now => exact absurd he (by simp [nonTriggerInput])

/-- Claim C2: while the active mode is expensive (semantic vsearch or
hybrid query), any sequence of text edits, debounce-timer expiries and
mode switches within the expensive modes dispatches no subprocess
invocation and allocates no request identity; switching from the cheap
keyword mode to an expensive mode with non-empty text sets
pending-confirmation and dispatches nothing; and a text edit to
non-empty text in an expensive mode sets pending-confirmation. -/
theorem expensive_mode_requires_trigger :
    (∀ (st : OrchState) (evs : List OrchEvent),
        isExpensiveSearch st.searchMode = true →
        (∀ e ∈ evs, nonTriggerInput e ∧ keepsExpensive e) →
        (runOrch st evs).dispatchCount = st.dispatchCount ∧
        (runOrch st evs).searchRequestId = st.searchRequestId ∧
        isExpensiveSearch (runOrch st evs).searchMode = true) ∧
    (∀ (st : OrchState) (m : SearchMode),
        st.searchMode = SearchMode.search →
        isExpensiveSearch m = true →
        jsTrim st.searchText ≠ "" →
        (stepOrch st (OrchEvent.switchMode m)).pendingSearch = true ∧
        (stepOrch st (OrchEvent.switchMode m)).dispatchCount =
          st.dispatchCount ∧
        (stepOrch st (OrchEvent.switchMode m)).isSearching =
          st.isSearching ∧
        (stepOrch st (OrchEvent.switchMode m)).searchRequestId =
          st.searchRequestId) ∧
    (∀ (st : OrchState) (t : String),
        isExpensiveSearch st.searchMode = true →
        jsTrim t ≠ "" →
        (stepOrch st (OrchEvent.textChange t)).pendingSearch = true) := by
  refine ⟨?_, ?_, ?_⟩
  · intro st evs
    induction evs generalizing st with
    | nil => simp [runOrch]
    | cons e evs ih =>
      intro hm hall
      have hstep := stepOrch_expensive_no_dispatch st e hm
        (hall e (List.mem_cons_self e evs)).1
        (hall e (List.mem_cons_self e evs)).2
      have hrest := ih (stepOrch st e) hstep.2.2
        (fun x hx => hall x (List.mem_cons_of_mem e hx))
      have hrun : runOrch st (e :: evs) = runOrch (stepOrch st e) evs := rfl
      rw [hrun]
      exact ⟨hrest.1.trans hstep.1, hrest.2.1.trans hstep.2.1, hrest.2.2⟩
  · intro st m hcheap hexp htext
    have hne : m ≠ st.searchMode := by
      intro hc
      rw [hc, hcheap] at hexp
      simp [isExpensiveSearch] at hexp
    simp only [stepOrch]
    rw [if_pos hne, if_pos htext, if_pos hexp]
    exact ⟨rfl, rfl, rfl, rfl⟩
  · intro st t hm htext
    simp [stepOrch, htext, hm]

/-- Witness for claim C2: a concrete expensive-mode trace with an edit,
a timer expiry and a switch to the other expensive mode; a concrete
cheap-to-expensive switch; and a concrete expensive-mode edit. -/
theorem expensive_mode_requires_trigger_witness :
    ((runOrch
        ⟨"ab", SearchMode.vsearch, [], false, false, true, 0, [], 0, 0⟩
        [OrchEvent.textChange "abc", OrchEvent.timerFire true,
          OrchEvent.switchMode SearchMode.query]).dispatchCount =
      (⟨"ab", SearchMode.vsearch, [], false, false, true, 0, [], 0,
          0⟩ : OrchState).dispatchCount ∧
      (runOrch
        ⟨"ab", SearchMode.vsearch, [], false, false, true, 0, [], 0, 0⟩
        [OrchEvent.textChange "abc", OrchEvent.timerFire true,
          OrchEvent.switchMode SearchMode.query]).searchRequestId =
      (⟨"ab", SearchMode.vsearch, [], false, false, true, 0, [], 0,
          0⟩ : OrchState).searchRequestId ∧
      isExpensiveSearch
        (runOrch
          ⟨"ab", SearchMode.vsearch, [], false, false, true, 0, [], 0, 0⟩
          [OrchEvent.textChange "abc", OrchEvent.timerFire true,
            OrchEvent.switchMode SearchMode.query]).searchMode = true) ∧
    ((stepOrch
        ⟨"hello", SearchMode.search, [], false, true, false, 3, [], 0, 2⟩
        (OrchEvent.switchMode SearchMode.vsearch)).pendingSearch = true ∧
      (stepOrch
        ⟨"hello", SearchMode.search, [], false, true, false, 3, [], 0, 2⟩
        (OrchEvent.switchMode SearchMode.vsearch)).dispatchCount =
      (⟨"hello", SearchMode.search, [], false, true, false, 3, [], 0,
          2⟩ : OrchState).dispatchCount ∧
      (stepOrch
        ⟨"hello", SearchMode.search, [], false, true, false, 3, [], 0, 2⟩
        (OrchEvent.switchMode SearchMode.vsearch)).isSearching =
      (⟨"hello", SearchMode.search, [], false, true, false, 3, [], 0,
          2⟩ : OrchState).isSearching ∧
      (stepOrch
        ⟨"hello", SearchMode.search, [], false, true, false, 3, [], 0, 2⟩
        (OrchEvent.switchMode SearchMode.vsearch)).searchRequestId =
      (⟨"hello", SearchMode.search, [], false, true, false, 3, [], 0,
          2⟩ : OrchState).searchRequestId) ∧
    (stepOrch
      ⟨"ab", SearchMode.query, [], false, false, false, 1, [], 0, 1⟩
      (OrchEvent.textChange "xy")).pendingSearch = true :=
  ⟨expensive_mode_requires_trigger.1
      ⟨"ab", SearchMode.vsearch, [], false, false, true, 0, [], 0, 0⟩
      [OrchEvent.textChange "abc", OrchEvent.timerFire true,
        OrchEvent.switchMode SearchMode.query]
      (by decide)
      (by simp [nonTriggerInput, keepsExpensive, isExpensiveSearch]),
    expensive_mode_requires_trigger.2.1
      ⟨"hello", SearchMode.search, [], false, true, false, 3, [], 0, 2⟩
      SearchMode.vsearch rfl (by decide) (by decide),
    expensive_mode_requires_trigger.2.2
      ⟨"ab", SearchMode.query, [], false, false, false, 1, [], 0, 1⟩
      "xy" (by decide) (by decide)⟩

/-- Claim C4: a fresh response whose engine run succeeded with zero
records clears the result set and shows no failure toast; a fresh
failure whose error message contains "No results" likewise clears the
result set and shows no failure toast; any other fresh failure (with the
non-empty error message the invoker always supplies) increments the
failure-toast count by one and clears the result set. -/
theorem empty_results_no_failure_toast (st : OrchState) (q : String)
    (cp : String → Option String) (now : ℕ) (e : String) :
    ((performSearchComplete st.searchRequestId q
        ⟨true, some [], none⟩ cp now st).results = [] ∧
      (performSearchComplete st.searchRequestId q
        ⟨true, some [], none⟩ cp now st).failureToasts =
        st.failureToasts) ∧
    (jsIncludes e "No results" = true →
      (performSearchComplete st.searchRequestId q
          ⟨false, none, some e⟩ cp now st).results = [] ∧
      (performSearchComplete st.searchRequestId q
          ⟨false, none, some e⟩ cp now st).failureToasts =
        st.failureToasts) ∧
    (e ≠ "" → jsIncludes e "No results" = false →
      (performSearchComplete st.searchRequestId q
          ⟨false, none, some e⟩ cp now st).failureToasts =
        st.failureToasts + 1 ∧
      (performSearchComplete st.searchRequestId q
          ⟨false, none, some e⟩ cp now st).results = []) := by
  refine ⟨⟨?_, ?_⟩, fun h1 => ⟨?_, ?_⟩, fun h2 h3 => ⟨?_, ?_⟩⟩ <;>
    simp_all [performSearchComplete]

/-- Witness for claim C4 at concrete responses: zero records, a
"No results" failure, and a spawn failure. -/
theorem empty_results_no_failure_toast_witness :
    ((performSearchComplete 4 "a" ⟨true, some [], none⟩ (fun _ => none) 9
        ⟨"a", SearchMode.search, [], true, false, false, 4, [], 2,
          4⟩).results = [] ∧
      (performSearchComplete 4 "a" ⟨true, some [], none⟩ (fun _ => none) 9
        ⟨"a", SearchMode.search, [], true, false, false, 4, [], 2,
          4⟩).failureToasts = 2) ∧
    (jsIncludes "Error: No results found" "No results" = true ∧
      (performSearchComplete 4 "a"
          ⟨false, none, some "Error: No results found"⟩ (fun _ => none) 9
          ⟨"a", SearchMode.search, [], true, false, false, 4, [], 2,
            4⟩).results = [] ∧
      (performSearchComplete 4 "a"
          ⟨false, none, some "Error: No results found"⟩ (fun _ => none) 9
          ⟨"a", SearchMode.search, [], true, false, false, 4, [], 2,
            4⟩).failureToasts = 2) ∧
    ("spawn qmd ENOENT" ≠ "" ∧
      jsIncludes "spawn qmd ENOENT" "No results" = false ∧
      (performSearchComplete 4 "a"
          ⟨false, none, some "spawn qmd ENOENT"⟩ (fun _ => none) 9
          ⟨"a", SearchMode.search, [], true, false, false, 4, [], 2,
            4⟩).failureToasts = 2 + 1 ∧
      (performSearchComplete 4 "a"
          ⟨false, none, some "spawn qmd ENOENT"⟩ (fun _ => none) 9
          ⟨"a", SearchMode.search, [], true, false, false, 4, [], 2,
            4⟩).results = []) :=
  ⟨(empty_results_no_failure_toast
      ⟨"a", SearchMode.search, [], true, false, false, 4, [], 2, 4⟩
      "a" (fun _ => none) 9 "x").1,
    ⟨by decide,
      (empty_results_no_failure_toast
        ⟨"a", SearchMode.search, [], true, false, false, 4, [], 2, 4⟩
        "a" (fun _ => none) 9 "Error: No results found").2.1 (by decide)⟩,
    ⟨by decide, by decide,
      (empty_results_no_failure_toast
        ⟨"a", SearchMode.search, [], true, false, false, 4, [], 2, 4⟩
        "a" (fun _ => none) 9 "spawn qmd ENOENT").2.2 (by decide)
        (by decide)⟩⟩
